import Mathlib

/-!
Verification development for the AE Toolkit (src/app.py).

The file shallowly embeds the three calculation engines of the application
(credit-limit evaluator, deal-profitability arithmetic with the staged-save
workflow, and the Murabahah schedule generator) together with the shared
free-form number parser `clean_number`. Python floats are modelled as exact
rationals (ℚ); machine rounding is not modelled. Stateful UI/database code is
modelled by explicit state passing (the staged-deals list in, the new list
out), with the record store's response given as an explicit value.
-/

namespace AeToolkit

/-! ## The clean-number parser (src/app.py, `clean_number`, lines 48-59) -/

/-- Python's `str`/`None`/numeric union for the `num_str` argument of
`clean_number`: the value may be `None`, an `int`/`float`, or a string. -/
inductive NumInput where
  | null : NumInput
  | num : ℚ → NumInput
  | str : String → NumInput
deriving DecidableEq

/-- Value of a list of decimal digit characters, most significant first. -/
def natOfDigits (l : List Char) : Nat :=
  l.foldl (fun n c => 10 * n + (c.toNat - 48)) 0

/-- Python `str.strip()`: remove leading and trailing whitespace. -/
def pyStrip (s : String) : String :=
  ⟨((s.toList.dropWhile Char.isWhitespace).reverse.dropWhile Char.isWhitespace).reverse⟩

/-- The `.replace(',', '').replace('%', '')` step of `clean_number`:
dropping every comma and percent sign. -/
def stripCommasPercent (s : String) : String :=
  ⟨s.toList.filter (fun c => !(c == ',' || c == '%'))⟩

/-- The full cleaning pipeline `str(num_str).replace(',','').replace('%','').strip()`. -/
def cleanStr (s : String) : String :=
  pyStrip (stripCommasPercent s)

/-- Digits of an unsigned decimal literal, split at the optional decimal point:
`some (intPart, fracPart, fracDigitCount)` when the characters form a valid
unsigned Python float literal (`"5"`, `"0.5"`, `"5."`, `".5"`), else `none`. -/
def parseUnsignedParts (l : List Char) : Option (Nat × Nat × Nat) :=
  let intPart := l.takeWhile (fun c => c ≠ '.')
  let rest := l.dropWhile (fun c => c ≠ '.')
  match rest with
  | [] =>
    if intPart.isEmpty then none
    else if intPart.all Char.isDigit then some (natOfDigits intPart, 0, 0)
    else none
  | _ :: frac =>
    if intPart.isEmpty && frac.isEmpty then none
    else if intPart.all Char.isDigit && frac.all Char.isDigit then
      some (natOfDigits intPart, natOfDigits frac, frac.length)
    else none

/-- Signed decimal literal: the `Bool` records a leading minus sign.
Models Python `float(...)` on plain signed decimal literals; exponent
notation, `inf`/`nan` and digit underscores are outside the modelled input
space (they are mapped to `none`, i.e. to the `ValueError` branch). -/
def parseSigned (l : List Char) : Option (Bool × Nat × Nat × Nat) :=
  match l with
  | '-' :: rest => (parseUnsignedParts rest).map (fun p => (true, p))
  | '+' :: rest => (parseUnsignedParts rest).map (fun p => (false, p))
  | _ => (parseUnsignedParts l).map (fun p => (false, p))

/-- The rational value denoted by a parsed signed decimal literal. -/
def ratOfParts (p : Bool × Nat × Nat × Nat) : ℚ :=
  (if p.1 then -1 else 1) * ((p.2.1 : ℚ) + (p.2.2.1 : ℚ) / 10 ^ p.2.2.2)

/-- Code: `clean_number(num_str, is_percentage)` from src/app.py lines 48-59.
`None` maps to `0`; an already-numeric value is divided by 100 only when the
percentage flag is set and `abs(val) >= 1`; a string is cleaned of commas,
percent signs and surrounding whitespace, an empty result maps to `0`, an
unparsable result maps to `0` (the `ValueError` branch), and a parsed value
is divided by 100 exactly when the percentage flag is set. -/
def clean_number (num : NumInput) (is_percentage : Bool) : ℚ :=
  match num with
  | .null => 0
  | .num v => if is_percentage = true ∧ 1 ≤ |v| then v / 100 else v
  | .str s =>
    let cleaned := cleanStr s
    if cleaned = "" then 0
    else
      match parseSigned cleaned.toList with
      | some parts => if is_percentage then ratOfParts parts / 100 else ratOfParts parts
      | none => 0

/-- Code: `clean_number` applied to an optional raw text-input value (`None` or a
string), as the credit-limit form does after submission. -/
def cleanOpt (o : Option String) (is_percentage : Bool) : ℚ :=
  clean_number (match o with | none => .null | some s => .str s) is_percentage

/-- Python truthiness test `x is None or x.strip() == ""` used by the
validation code for required text fields. -/
def strBlank (o : Option String) : Bool :=
  match o with
  | none => true
  | some s => pyStrip s == ""

/-! ## Credit Limit Evaluator (src/app.py, `credit_limit_calculator`, lines 124-277) -/

/-- The industry selectbox values. -/
inductive Industry where
  | trading : Industry
  | manufacturing : Industry
  | contractor : Industry
deriving DecidableEq

/-- The form inputs of the credit-limit calculator. Text inputs are kept as
raw optional strings (the form yields `""` for untouched fields, modelled
together with `None` by `Option String`); the two `st.number_input` widgets
yield numbers directly (`years_of_operation` a float, `number_of_projects`
an integer, so `int(clean_number(...))` is the identity on it); radio
buttons are booleans. -/
structure CreditInput where
  requested_limit_str : Option String
  revenue_str : Option String
  net_profit_percentage_str : Option String
  current_assets_str : Option String
  current_liabilities_str : Option String
  exposure_outstanding_str : Option String
  unbilled_revenue_str : Option String
  industry_type : Option Industry
  is_saudi : Bool
  years_of_operation : ℚ
  has_concentration : Bool
  number_of_projects : Int
  has_previous_payments : Bool
  has_payment_delays : Bool

/-- Cleaned `requested_limit` (src/app.py line 158). -/
def requested_limit (a : CreditInput) : ℚ := cleanOpt a.requested_limit_str false

/-- Cleaned `revenue` (line 159). -/
def revenue (a : CreditInput) : ℚ := cleanOpt a.revenue_str false

/-- Cleaned `net_profit_percentage`, parsed with the percentage flag (line 160). -/
def net_profit_percentage (a : CreditInput) : ℚ :=
  cleanOpt a.net_profit_percentage_str true

/-- Cleaned `current_assets` (line 161). -/
def current_assets (a : CreditInput) : ℚ := cleanOpt a.current_assets_str false

/-- Cleaned `current_liabilities` (line 162). -/
def current_liabilities (a : CreditInput) : ℚ := cleanOpt a.current_liabilities_str false

/-- Cleaned `exposure_outstanding` (line 163). -/
def exposure_outstanding (a : CreditInput) : ℚ := cleanOpt a.exposure_outstanding_str false

/-- Cleaned `unbilled_revenue`: parsed only for contractors, else `0` (line 164). -/
def unbilled_revenue (a : CreditInput) : ℚ :=
  if a.industry_type = some .contractor then cleanOpt a.unbilled_revenue_str false else 0

/-- Identities of the validation error messages appended in lines 170-186.
The code appends literal message strings; they are modelled as tags, with
`VRule.msg` giving the literal text, so that distinctness of the messages is
structural. -/
inductive VRule where
  | requestedPositive : VRule
  | revenuePositive : VRule
  | exposureNonneg : VRule
  | industryRequired : VRule
  | unbilledRequired : VRule
  | unbilledPositive : VRule
  | yearsPositive : VRule
  | projectsMin : VRule
  | netProfitRequired : VRule
  | netProfitPositive : VRule
  | assetsRequired : VRule
  | liabilitiesRequired : VRule
  | assetsPositive : VRule
  | liabilitiesPositive : VRule
deriving DecidableEq

/-- The literal message string the code appends for each violated rule. -/
def VRule.msg : VRule → String
  | .requestedPositive => "Requested Limit > 0."
  | .revenuePositive => "Revenue > 0."
  | .exposureNonneg => "Exposure >= 0."
  | .industryRequired => "Industry Type required."
  | .unbilledRequired => "Unbilled Revenue required."
  | .unbilledPositive => "Unbilled Revenue > 0."
  | .yearsPositive => "Years Op > 0."
  | .projectsMin => "Projects >= 1."
  | .netProfitRequired => "Net Profit % required."
  | .netProfitPositive => "Net Profit % must be > 0."
  | .assetsRequired => "Current Assets required."
  | .liabilitiesRequired => "Current Liabilities required."
  | .assetsPositive => "Current Assets > 0."
  | .liabilitiesPositive => "Current Liabilities > 0."

/-- The contractor-only validation block (lines 174-176): required unbilled
revenue, and an `elif`-guarded positivity check. -/
def contractorErrors (a : CreditInput) : List VRule :=
  if a.industry_type = some .contractor then
    if strBlank a.unbilled_revenue_str then [.unbilledRequired]
    else if unbilled_revenue a ≤ 0 then [.unbilledPositive]
    else []
  else []

/-- The net-profit validation block (lines 179-180): required, and an
`elif`-guarded positivity check. -/
def netProfitErrors (a : CreditInput) : List VRule :=
  if strBlank a.net_profit_percentage_str then [.netProfitRequired]
  else if net_profit_percentage a ≤ 0 then [.netProfitPositive]
  else []

/-- The full validation error list, appended in the exact source order of
lines 170-186. -/
def validationErrors (a : CreditInput) : List VRule :=
  (if requested_limit a ≤ 0 then [.requestedPositive] else [])
  ++ (if revenue a ≤ 0 then [.revenuePositive] else [])
  ++ (if exposure_outstanding a < 0 then [.exposureNonneg] else [])
  ++ (if a.industry_type = none then [.industryRequired] else [])
  ++ contractorErrors a
  ++ (if a.years_of_operation ≤ 0 then [.yearsPositive] else [])
  ++ (if a.number_of_projects < 1 then [.projectsMin] else [])
  ++ netProfitErrors a
  ++ (if strBlank a.current_assets_str then [.assetsRequired] else [])
  ++ (if strBlank a.current_liabilities_str then [.liabilitiesRequired] else [])
  ++ (if current_assets a ≤ 0 then [.assetsPositive] else [])
  ++ (if current_liabilities a ≤ 0 then [.liabilitiesPositive] else [])

/-- Code: `actual_net_profit = revenue * net_profit_percentage if revenue > 0 else 0`
(line 181). -/
def actual_net_profit (a : CreditInput) : ℚ :=
  if 0 < revenue a then revenue a * net_profit_percentage a else 0

/-- Code: `actual_current_ratio`: `None` unless both components are positive, in
which case it is the quotient (lines 182, 187). -/
def currentRatioOpt (a : CreditInput) : Option ℚ :=
  if 0 < current_liabilities a ∧ 0 < current_assets a then
    some (current_assets a / current_liabilities a)
  else none

/-- Identities of the eligibility failure messages (lines 193-196), again as
tags with the literal text in `ERule.msg`. -/
inductive ERule where
  | netProfitNeeded : ERule
  | ratioUndefined : ERule
  | ratioNotAboveOne : ERule
deriving DecidableEq

/-- The literal message string for each eligibility failure. The third
message interpolates the computed ratio in the code
(`f"Current ratio > 1 required (is {r:.2f})."`); the numeric formatting is
elided here. -/
def ERule.msg : ERule → String
  | .netProfitNeeded => "Net profit > 0% required."
  | .ratioUndefined => "Valid Current Assets/Liabilities needed."
  | .ratioNotAboveOne => "Current ratio > 1 required."

/-- The current ratio with `None` read as 0, used only where the code has
already ruled the `None` case out (the `elif` comparison on line 196 and the
adjustment condition on line 229). -/
def ratioValue (a : CreditInput) : ℚ := (currentRatioOpt a).getD 0

/-- The eligibility failure list, in the source order of lines 191-196: the
net-profit check, then the `is None` check with an `elif` comparison of the
ratio against 1. -/
def eligReasons (a : CreditInput) : List ERule :=
  (if actual_net_profit a ≤ 0 then [.netProfitNeeded] else [])
  ++ (if currentRatioOpt a = none then [.ratioUndefined]
      else if ratioValue a ≤ 1 then [.ratioNotAboveOne] else [])

/-- Code: `max_initial_base_limit = 2000000` (line 202). -/
def max_initial_base_limit : ℚ := 2000000

/-- Code: `min_final_limit = 100000` (line 235). -/
def min_final_limit : ℚ := 100000

/-- Code: `max_final_limit = 2000000` (line 235). -/
def max_final_limit : ℚ := 2000000

/-- Code: `base_limit_unadjusted` (line 203): 15% of unbilled revenue for
contractors, else 5% of revenue. -/
def base_limit_unadjusted (a : CreditInput) : ℚ :=
  if a.industry_type = some .contractor then unbilled_revenue a * 0.15
  else revenue a * 0.05

/-- Whether the initial base cap was recorded (line 206): the code stores a
non-empty note string exactly when the unadjusted base exceeds the cap, and
later tests that string for truthiness. -/
def capApplied (a : CreditInput) : Bool :=
  decide (max_initial_base_limit < base_limit_unadjusted a)

/-- Code: `base_limit_after_cap = min(base_limit_unadjusted, max_initial_base_limit)`
(lines 205, 207). -/
def base_limit_after_cap (a : CreditInput) : ℚ :=
  min (base_limit_unadjusted a) max_initial_base_limit

/-- The multiplicative adjustment factors triggered by the application, in
the exact source order of lines 222-231 (negative adjustments first, then
positive ones). -/
def adjFactors (a : CreditInput) : List ℚ :=
  (if revenue a * 0.3 < exposure_outstanding a then [0.65] else [])
  ++ (if a.is_saudi = false then [0.90] else [])
  ++ (if a.years_of_operation < 3 then [0.90] else [])
  ++ (if a.has_concentration = true then [0.90] else [])
  ++ (if a.has_previous_payments = true ∧ a.has_payment_delays = true then [0.90] else [])
  ++ (if a.number_of_projects < 3 then [0.95] else [])
  ++ (if 2 < ratioValue a then [1.05] else [])
  ++ (if 10 < a.years_of_operation then [1.05] else [])
  ++ (if a.has_previous_payments = true ∧ a.has_payment_delays = false then [1.10] else [])

/-- Sequential application of the triggered factors to the running limit,
as `apply_adjustment` does one call at a time (lines 210-231). -/
def applyAdjustments (base : ℚ) (factors : List ℚ) : ℚ :=
  factors.foldl (fun limit f => limit * f) base

/-- Code: `adjusted_limit` (line 234): the capped base after all triggered
adjustments. -/
def adjusted_limit (a : CreditInput) : ℚ :=
  applyAdjustments (base_limit_after_cap a) (adjFactors a)

/-- The floor/ceiling note recorded by the final clamp. -/
inductive Note where
  | floor : Note
  | ceiling : Note
deriving DecidableEq

/-- The final clamp (lines 235-239): floor to 100,000; otherwise ceiling to
2,000,000 unless the base-cap note is set and the ceiling equals the initial
base cap — in which case neither the clamp nor the note is applied. -/
def finalClamp (adjusted : ℚ) (cap : Bool) : ℚ × Option Note :=
  if adjusted < min_final_limit then (min_final_limit, some .floor)
  else if max_final_limit < adjusted then
    if ¬(cap = true ∧ max_final_limit = max_initial_base_limit) then
      (max_final_limit, some .ceiling)
    else (adjusted, none)
  else (adjusted, none)

/-- Code: `final_limit` (line 239). -/
def final_limit (a : CreditInput) : ℚ :=
  (finalClamp (adjusted_limit a) (capApplied a)).1

/-- The recorded `Min/Max Applied` note. -/
def minMaxNote (a : CreditInput) : Option Note :=
  (finalClamp (adjusted_limit a) (capApplied a)).2

/-- The structured calculation result (the fields of `calculation_details`
plus the intermediate values the code displays). -/
structure CreditResult where
  base_unadjusted : ℚ
  cap_applied : Bool
  base_after_cap : ℚ
  adjustments : List ℚ
  adjusted : ℚ
  final : ℚ
  note : Option Note
deriving DecidableEq

/-- The successful calculation output for an application. -/
def creditResult (a : CreditInput) : CreditResult :=
  ⟨base_limit_unadjusted a, capApplied a, base_limit_after_cap a, adjFactors a,
    adjusted_limit a, final_limit a, minMaxNote a⟩

/-- Failure outcomes of the evaluator. -/
inductive CreditError where
  | validation : List VRule → CreditError
  | ineligible : List ERule → CreditError
deriving DecidableEq

/-- The whole evaluator: validation first (collecting every violated rule and
returning them all, lines 169-188), then eligibility (collecting every failed
condition, lines 190-197), then the calculation (lines 199-239). -/
def creditEval (a : CreditInput) : Except CreditError CreditResult :=
  if validationErrors a ≠ [] then .error (.validation (validationErrors a))
  else if eligReasons a ≠ [] then .error (.ineligible (eligReasons a))
  else .ok (creditResult a)

/-- Spec-side characterization of when a validation rule is violated, written
from the spec's list of field rules (§4.1) to state that the code's error
list collects exactly the violated rules. -/
def vViolated (r : VRule) (a : CreditInput) : Prop :=
  match r with
  | .requestedPositive => requested_limit a ≤ 0
  | .revenuePositive => revenue a ≤ 0
  | .exposureNonneg => exposure_outstanding a < 0
  | .industryRequired => a.industry_type = none
  | .unbilledRequired =>
      a.industry_type = some .contractor ∧ strBlank a.unbilled_revenue_str = true
  | .unbilledPositive =>
      a.industry_type = some .contractor ∧ strBlank a.unbilled_revenue_str = false
        ∧ unbilled_revenue a ≤ 0
  | .yearsPositive => a.years_of_operation ≤ 0
  | .projectsMin => a.number_of_projects < 1
  | .netProfitRequired => strBlank a.net_profit_percentage_str = true
  | .netProfitPositive =>
      strBlank a.net_profit_percentage_str = false ∧ net_profit_percentage a ≤ 0
  | .assetsRequired => strBlank a.current_assets_str = true
  | .liabilitiesRequired => strBlank a.current_liabilities_str = true
  | .assetsPositive => current_assets a ≤ 0
  | .liabilitiesPositive => current_liabilities a ≤ 0

/-- Spec-side characterization of when an eligibility condition fails. -/
def eViolated (r : ERule) (a : CreditInput) : Prop :=
  match r with
  | .netProfitNeeded => actual_net_profit a ≤ 0
  | .ratioUndefined => currentRatioOpt a = none
  | .ratioNotAboveOne => ¬ currentRatioOpt a = none ∧ ratioValue a ≤ 1

/-- The concrete application of the spec's worked example (§8): revenue
10,000,000, Trading, exposure 0, Saudi-owned, 11 years of operation, no
concentration, 3 projects, previous payments with no delays, current ratio
3,000,000 / 1,000,000 = 3. -/
def exampleApp : CreditInput :=
  ⟨some ("500,000"), some ("10,000,000"), some ("5"), some ("3,000,000"),
    some ("1,000,000"), some ("0"), none, some .trading, true, 11, false, 3,
    true, false⟩

/-- A fully-empty submission: every text field untouched, no industry chosen,
zero years of operation and zero projects. Used to exhibit the collection of
several validation errors at once. -/
def invalidApp : CreditInput :=
  ⟨none, none, none, none, none, none, none, none, true, 0, false, 0, false, false⟩

/-! ## Deal Profitability Calculator (src/app.py, `profit_calculator`, lines 310-422) -/

/-- The per-deal inputs of the profitability form. -/
structure DealInput where
  client_name : String
  deal_size : ℚ
  monthly_rate : ℚ
  admin_fee_perc : ℚ
  months : Nat

/-- Code: `monthly_profit = deal_size*(monthly_rate/100.0)` (line 324). -/
def Deal.monthly_profit (d : DealInput) : ℚ := d.deal_size * (d.monthly_rate / 100)

/-- Code: `total_profit = monthly_profit*months` (line 324). -/
def Deal.total_profit (d : DealInput) : ℚ := Deal.monthly_profit d * d.months

/-- Code: `admin_fee_amount = deal_size*(admin_fee_perc/100.0)` (line 324). -/
def Deal.admin_fee_amount (d : DealInput) : ℚ := d.deal_size * (d.admin_fee_perc / 100)

/-- Code: `gross_profit = total_profit+admin_fee_amount` (line 324). -/
def Deal.gross_profit (d : DealInput) : ℚ := Deal.total_profit d + Deal.admin_fee_amount d

/-- A staged deal as seen by `save_deal_bundle_to_db`: the fields the
validity check inspects. `Option` models a missing or non-numeric dictionary
entry (the `isinstance` checks). -/
structure StagedDeal where
  client_name : String
  deal_size : Option ℚ
  months : Option Int

/-- The record store's bulk-insert response: an optional error and the number
of returned rows (`len(response.data)`; `data` absent or empty is count 0). -/
structure DbResponse where
  error : Option String
  dataCount : Nat

/-- Python falsiness of an optional string (`not x`). -/
def strFalsy (o : Option String) : Bool :=
  match o with
  | none => true
  | some s => s == ""

/-- The per-deal validity check of lines 88-89: truthy client name, numeric
positive deal size, integer positive months. (The `user_id is not None`
conjunct is guaranteed by the earlier bundle-level guard and is dropped.) -/
def validDeal (d : StagedDeal) : Bool :=
  !(d.client_name == "")
    && (match d.deal_size with | some v => decide (0 < v) | none => false)
    && (match d.months with | some m => decide (0 < m) | none => false)

/-- Code: `save_deal_bundle_to_db` (lines 81-100): guards, the skip-invalid filter,
and the response checks — error, empty data, and the partial-success count
mismatch all return `False`; only an exact count match returns `True`. -/
def save_deal_bundle_to_db (user_id : Option String) (session_token : Option String)
    (deals_list : List StagedDeal) (resp : DbResponse) : Bool :=
  if deals_list.isEmpty then false
  else if strFalsy user_id then false
  else if strFalsy session_token then false
  else
    let prepared := deals_list.filter validDeal
    if prepared.isEmpty then false
    else
      match resp.error with
      | some _ => false
      | none =>
        if resp.dataCount = 0 then false
        else if resp.dataCount ≠ prepared.length then false
        else true

/-- The save-button handler of lines 358-366: when staging is non-empty and a
session token is present, run the bundle save and clear the staged list only
on success; on any failure the staged list is left untouched. Returns the
success flag and the new staged list. -/
def saveStagedBundle (user_id : Option String) (session_token : Option String)
    (staged : List StagedDeal) (resp : DbResponse) : Bool × List StagedDeal :=
  if 0 < staged.length then
    if strFalsy session_token then (false, staged)
    else
      let ok := save_deal_bundle_to_db user_id session_token staged resp
      (ok, if ok then [] else staged)
  else (false, staged)

/-! ## Murabahah Schedule Generator (src/app.py, `murabahah_calculator`, lines 427-472) -/

/-- The Murabahah inputs: deal size, monthly profit rate (percent), financing
period in months, administrative fee (percent). -/
structure MurPlan where
  deal_size : ℚ
  profit_rate : ℚ
  period : Nat
  admin_fee_perc : ℚ

/-- Code: `admin_fee_amount = deal_size * (admin_fee_perc / 100.0)` (line 443). -/
def Mur.admin_fee_amount (p : MurPlan) : ℚ := p.deal_size * (p.admin_fee_perc / 100)

/-- Code: `monthly_profit_rate_dec = profit_rate / 100.0` (line 444). -/
def Mur.monthly_rate (p : MurPlan) : ℚ := p.profit_rate / 100

/-- Code: `total_profit_amount = deal_size * monthly_profit_rate_dec * financing_period`
(line 445). -/
def Mur.total_profit_amount (p : MurPlan) : ℚ :=
  p.deal_size * Mur.monthly_rate p * p.period

/-- Code: `total_earnings = total_profit_amount + admin_fee_amount` (line 446). -/
def Mur.total_earnings (p : MurPlan) : ℚ :=
  Mur.total_profit_amount p + Mur.admin_fee_amount p

/-- Code: `base_repayment_per_month` (line 448), with the code's guard against a
zero period. -/
def Mur.base_repayment (p : MurPlan) : ℚ :=
  if 0 < p.period then (p.deal_size + Mur.total_profit_amount p) / p.period else 0

/-- Code: `first_month_payment = base_repayment_per_month + admin_fee_amount` (line 449). -/
def Mur.first_month_payment (p : MurPlan) : ℚ :=
  Mur.base_repayment p + Mur.admin_fee_amount p

/-- Code: `subsequent_monthly_payment = base_repayment_per_month` (line 450). -/
def Mur.subsequent_payment (p : MurPlan) : ℚ := Mur.base_repayment p

/-- One row of the payment schedule (line 459). -/
structure MonthRow where
  month : Nat
  installment : ℚ
  principal : ℚ
  profit : ℚ
  admin_fee_paid : ℚ
  remaining : ℚ

/-- Code: `current_month_total_payment` (line 454): first-month payment in month 1,
the flat subsequent payment afterwards. -/
def monthInstallment (p : MurPlan) (month : Nat) : ℚ :=
  if month = 1 then Mur.first_month_payment p else Mur.subsequent_payment p

/-- Code: `admin_fee_paid_this_month` (line 455): the whole admin fee in month 1,
zero afterwards. -/
def monthFeePaid (p : MurPlan) (month : Nat) : ℚ :=
  if month = 1 then Mur.admin_fee_amount p else 0

/-- Code: `principal_paid` (lines 456-457): payment minus this month's profit on
the running balance minus this month's admin fee, floored at 0 — except that
the final month's principal is forced to the exact remaining principal. -/
def monthPrincipal (p : MurPlan) (month : Nat) (remaining : ℚ) : ℚ :=
  if month = p.period then remaining
  else max 0 (monthInstallment p month - remaining * Mur.monthly_rate p - monthFeePaid p month)

/-- The schedule loop of lines 451-459, one call per remaining month: `k` is
the number of months still to emit, `month` the 1-based month counter,
`remaining` the running `remaining_principal`. The row displays the remaining
balance floored at 0 while the running value is carried un-floored. -/
def buildSchedule (p : MurPlan) : Nat → Nat → ℚ → List MonthRow
  | 0, _, _ => []
  | k + 1, month, remaining =>
    ⟨month, monthInstallment p month, monthPrincipal p month remaining,
      remaining * Mur.monthly_rate p, monthFeePaid p month,
      max 0 (remaining - monthPrincipal p month remaining)⟩
      :: buildSchedule p k (month + 1) (remaining - monthPrincipal p month remaining)

/-- The full schedule: months `1..period` starting from the full deal size
(computed by the code under the guard `deal_size > 0 and financing_period > 0`). -/
def schedule (p : MurPlan) : List MonthRow :=
  buildSchedule p p.period 1 p.deal_size

/-- The example plan of the spec (§8): deal size 100,000, monthly rate 2.5%,
3 months, admin fee 1.5%. -/
def examplePlan : MurPlan := ⟨100000, 2.5, 3, 1.5⟩

/-! ## Theorems -/

/-- Unfolding equation for the string branch of `clean_number`. -/
theorem clean_number_str_eq (s : String) (p : Bool) :
    clean_number (.str s) p =
      (if cleanStr s = "" then 0
       else
        match parseSigned (cleanStr s).toList with
        | some parts => if p then ratOfParts parts / 100 else ratOfParts parts
        | none => 0) := rfl

/-- Unfolding equation for the numeric branch of `clean_number`. -/
theorem clean_number_num_eq (v : ℚ) (p : Bool) :
    clean_number (.num v) p = (if p = true ∧ 1 ≤ |v| then v / 100 else v) := rfl

/-- Evaluation helper: a string whose cleaned form parses to `parts`. -/
theorem clean_number_parsed (s : String) (p : Bool) (parts : Bool × Nat × Nat × Nat)
    (h1 : ¬ cleanStr s = "") (h2 : parseSigned (cleanStr s).toList = some parts) :
    clean_number (.str s) p =
      (if p then ratOfParts parts / 100 else ratOfParts parts) := by
  rw [clean_number_str_eq, if_neg h1, h2]

/-- Evaluation helper: a string whose cleaned form fails to parse. -/
theorem clean_number_unparsable (s : String) (p : Bool)
    (h1 : ¬ cleanStr s = "") (h2 : parseSigned (cleanStr s).toList = none) :
    clean_number (.str s) p = 0 := by
  rw [clean_number_str_eq, if_neg h1, h2]

/-- C4 counterexample: the claim says the percentage parser leaves the string
`"0.5"` unchanged (already fractional) and maps `"1,500,000"` to 1,500,000
with or without the percentage flag; on the code, the string branch always
divides by 100 when the flag is set, giving 0.005 and 15,000 respectively. -/
theorem clean_number_flag_counterexample :
    clean_number (.str ("0.5")) true ≠ 1 / 2
    ∧ clean_number (.str ("1,500,000")) true ≠ 1500000 := by
  constructor
  · rw [clean_number_parsed ("0.5") true (false, 0, 5, 1) (by decide) (by decide)]
    norm_num [ratOfParts]
  · rw [clean_number_parsed ("1,500,000") true (false, 1500000, 0, 0) (by decide) (by decide)]
    norm_num [ratOfParts]

/-- C4 (amended): with the percentage flag, the string `"5"` maps to 0.05 and
the string `"0.5"` maps to 0.005 — the already-fractional exemption lives
only on the numeric branch, where the number 0.5 is indeed left unchanged.
With or without the flag, `""` and null map to 0 and non-numeric input
normalizes to 0. `"1,500,000"` maps to 1,500,000 with comma grouping
stripped when the flag is off, and is further divided by 100 to 15,000 when
the flag is on. -/
theorem clean_number_cases :
    clean_number (.str ("5")) true = 5 / 100
    ∧ clean_number (.str ("0.5")) true = 5 / 1000
    ∧ clean_number (.num (1 / 2)) true = 1 / 2
    ∧ clean_number .null true = 0
    ∧ clean_number .null false = 0
    ∧ clean_number (.str ("")) true = 0
    ∧ clean_number (.str ("")) false = 0
    ∧ clean_number (.str ("1,500,000")) false = 1500000
    ∧ clean_number (.str ("1,500,000")) true = 15000
    ∧ clean_number (.str ("abc")) true = 0
    ∧ clean_number (.str ("abc")) false = 0 := by
  refine ⟨?_, ?_, ?_, rfl, rfl, ?_, ?_, ?_, ?_, ?_, ?_⟩
  · rw [clean_number_parsed ("5") true (false, 5, 0, 0) (by decide) (by decide)]
    norm_num [ratOfParts]
  · rw [clean_number_parsed ("0.5") true (false, 0, 5, 1) (by decide) (by decide)]
    norm_num [ratOfParts]
  · rw [clean_number_num_eq, if_neg (by norm_num [abs_lt])]
  · rw [clean_number_str_eq, if_pos (by decide)]
  · rw [clean_number_str_eq, if_pos (by decide)]
  · rw [clean_number_parsed ("1,500,000") false (false, 1500000, 0, 0) (by decide) (by decide)]
    norm_num [ratOfParts]
  · rw [clean_number_parsed ("1,500,000") true (false, 1500000, 0, 0) (by decide) (by decide)]
    norm_num [ratOfParts]
  · exact clean_number_unparsable ("abc") true (by decide) (by decide)
  · exact clean_number_unparsable ("abc") false (by decide) (by decide)

/-- C9: per-deal profitability arithmetic, with the spec's worked example:
deal size 200,000, monthly rate 3%, admin fee 1.5%, 4 months gives monthly
profit 6,000, total profit 24,000, admin fee amount 3,000, gross profit
27,000. -/
theorem profit_arithmetic (d : DealInput) :
    Deal.monthly_profit d = d.deal_size * (d.monthly_rate / 100)
    ∧ Deal.total_profit d = Deal.monthly_profit d * d.months
    ∧ Deal.admin_fee_amount d = d.deal_size * (d.admin_fee_perc / 100)
    ∧ Deal.gross_profit d = Deal.total_profit d + Deal.admin_fee_amount d
    ∧ Deal.monthly_profit ⟨"ACME", 200000, 3, 1.5, 4⟩ = 6000
    ∧ Deal.total_profit ⟨"ACME", 200000, 3, 1.5, 4⟩ = 24000
    ∧ Deal.admin_fee_amount ⟨"ACME", 200000, 3, 1.5, 4⟩ = 3000
    ∧ Deal.gross_profit ⟨"ACME", 200000, 3, 1.5, 4⟩ = 27000 := by
  refine ⟨rfl, rfl, rfl, rfl, ?_, ?_, ?_, ?_⟩ <;>
    norm_num [Deal.monthly_profit, Deal.total_profit, Deal.admin_fee_amount,
      Deal.gross_profit]

/-- A `True` result from `save_deal_bundle_to_db` forces the store's returned
row count to equal the number of submitted (valid) deals. -/
theorem save_bundle_true_count (u t : Option String) (l : List StagedDeal)
    (r : DbResponse) (h : save_deal_bundle_to_db u t l r = true) :
    r.dataCount = (l.filter validDeal).length := by
  obtain ⟨err, cnt⟩ := r
  cases err with
  | some e =>
    simp only [save_deal_bundle_to_db] at h
    split_ifs at h <;> simp_all
  | none =>
    simp only [save_deal_bundle_to_db] at h
    split_ifs at h <;> simp_all

/-- C7: the save-button workflow leaves the staged list unmodified whenever
the store's returned record count differs from the submitted count, and
clears it only when the returned count exactly equals the submitted count
(the count of staged deals that pass the validity filter). -/
theorem saveStagedBundle_count_guard (u t : Option String)
    (staged : List StagedDeal) (resp : DbResponse) :
    (resp.dataCount ≠ (staged.filter validDeal).length →
      (saveStagedBundle u t staged resp).2 = staged)
    ∧ ((saveStagedBundle u t staged resp).2 = [] →
      staged = [] ∨ resp.dataCount = (staged.filter validDeal).length) := by
  unfold saveStagedBundle
  split_ifs with h1 h2
  · exact ⟨fun _ => rfl, fun h => Or.inl h⟩
  · simp only
    by_cases hok : save_deal_bundle_to_db u t staged resp = true
    · rw [hok]
      have := save_bundle_true_count u t staged resp hok
      exact ⟨fun hne => absurd this hne, fun _ => Or.inr this⟩
    · rw [Bool.not_eq_true] at hok
      rw [hok]
      exact ⟨fun _ => rfl, fun h => Or.inl h⟩
  · exact ⟨fun _ => rfl, fun h => Or.inl h⟩

/-- C7 witness: a single valid staged deal with a store response reporting
two rows (a count mismatch) is left staged. -/
theorem saveStagedBundle_count_guard_witness :
    (⟨none, 2⟩ : DbResponse).dataCount ≠
        (([⟨"A", some 100, some 4⟩] : List StagedDeal).filter validDeal).length
    ∧ (saveStagedBundle (some ("u")) (some ("t")) [⟨"A", some 100, some 4⟩]
        ⟨none, 2⟩).2 = [⟨"A", some 100, some 4⟩] := by
  have h : (⟨none, 2⟩ : DbResponse).dataCount ≠
      (([⟨"A", some 100, some 4⟩] : List StagedDeal).filter validDeal).length := by
    decide
  exact ⟨h, (saveStagedBundle_count_guard (some ("u")) (some ("t"))
    [⟨"A", some 100, some 4⟩] ⟨none, 2⟩).1 h⟩

/-- One-step unfolding of the schedule loop. -/
theorem buildSchedule_cons (p : MurPlan) (k month : Nat) (r : ℚ) :
    buildSchedule p (k + 1) month r =
      ⟨month, monthInstallment p month, monthPrincipal p month r,
        r * Mur.monthly_rate p, monthFeePaid p month,
        max 0 (r - monthPrincipal p month r)⟩
        :: buildSchedule p k (month + 1) (r - monthPrincipal p month r) := rfl

/-- Telescoping lemma for the schedule loop: over a block of months that runs
through the final month (`month + k = period + 1`, at least one month), the
emitted principals sum to exactly the remaining principal at entry, because
the final month's principal is forced to the exact remainder. -/
theorem buildSchedule_principal_sum (p : MurPlan) :
    ∀ (k month : Nat) (r : ℚ), month + k = p.period + 1 → 1 ≤ k →
      ((buildSchedule p k month r).map MonthRow.principal).sum = r := by
  intro k
  induction k with
  | zero => intro month r _ h1; exact absurd h1 (by norm_num)
  | succ k ih =>
    intro month r h _
    rw [buildSchedule_cons, List.map_cons, List.sum_cons]
    cases k with
    | zero =>
      have hm : month = p.period := by omega
      simp [buildSchedule, monthPrincipal, hm]
    | succ k' =>
      rw [ih (month + 1) (r - monthPrincipal p month r) (by omega) (by omega)]
      ring

/-- C3: for a plan with positive deal size and at least one month, the
schedule's principals sum to exactly the deal size (no rounding leakage). -/
theorem murabahah_principal_sum (p : MurPlan) (hd : 0 < p.deal_size)
    (hp : 1 ≤ p.period) :
    ((schedule p).map MonthRow.principal).sum = p.deal_size := by
  unfold schedule
  exact buildSchedule_principal_sum p p.period 1 p.deal_size (by omega) hp

/-- C3 witness: the spec's example plan (100,000 at 2.5% over 3 months with a
1.5% fee) has a schedule whose principals sum to 100,000. -/
theorem murabahah_principal_sum_witness :
    0 < examplePlan.deal_size ∧ 1 ≤ examplePlan.period
    ∧ ((schedule examplePlan).map MonthRow.principal).sum = examplePlan.deal_size :=
  ⟨by norm_num [examplePlan], by norm_num [examplePlan],
    murabahah_principal_sum examplePlan (by norm_num [examplePlan])
      (by norm_num [examplePlan])⟩

/-- Each emitted row's profit is the remaining principal at the start of that
month (the entry balance minus all principals paid so far) times the monthly
rate. -/
theorem buildSchedule_profit (p : MurPlan) :
    ∀ (k month : Nat) (r : ℚ) (i : Nat) (row : MonthRow),
      (buildSchedule p k month r).get? i = some row →
      row.profit
        = (r - (((buildSchedule p k month r).take i).map MonthRow.principal).sum)
            * Mur.monthly_rate p := by
  intro k
  induction k with
  | zero => intro month r i row h; simp [buildSchedule] at h
  | succ k ih =>
    intro month r i row h
    cases i with
    | zero =>
      rw [buildSchedule_cons, List.get?_cons_zero] at h
      cases h
      simp [buildSchedule_cons]
    | succ i' =>
      rw [buildSchedule_cons, List.get?_cons_succ] at h
      rw [buildSchedule_cons, List.take_succ_cons, List.map_cons, List.sum_cons,
        ih (month + 1) _ i' row h]
      ring

/-- C5: the Murabahah summary formulas and the declining-profit property of
the schedule rows: admin fee is 1.5%-style percent of deal size, total profit
is deal size times monthly rate times period, total earnings their sum, the
first month's payment carries the whole admin fee on top of the flat base
repayment, and each month's profit is the start-of-month remaining principal
times the monthly rate. -/
theorem murabahah_formulas (p : MurPlan) (hd : 0 < p.deal_size)
    (hp : 1 ≤ p.period) :
    Mur.admin_fee_amount p = p.deal_size * p.admin_fee_perc / 100
    ∧ Mur.total_profit_amount p = p.deal_size * (p.profit_rate / 100) * p.period
    ∧ Mur.total_earnings p = Mur.total_profit_amount p + Mur.admin_fee_amount p
    ∧ Mur.first_month_payment p
        = (p.deal_size + Mur.total_profit_amount p) / p.period + Mur.admin_fee_amount p
    ∧ Mur.subsequent_payment p = (p.deal_size + Mur.total_profit_amount p) / p.period
    ∧ ∀ (i : Nat) (row : MonthRow), (schedule p).get? i = some row →
        row.profit
          = (p.deal_size - (((schedule p).take i).map MonthRow.principal).sum)
              * Mur.monthly_rate p := by
  refine ⟨by rw [Mur.admin_fee_amount, mul_div_assoc], rfl, rfl, ?_, ?_, ?_⟩
  · rw [Mur.first_month_payment, Mur.base_repayment, if_pos (by omega : 0 < p.period)]
  · rw [Mur.subsequent_payment, Mur.base_repayment, if_pos (by omega : 0 < p.period)]
  · intro i row h
    exact buildSchedule_profit p p.period 1 p.deal_size i row h

/-- C5 witness: on the example plan the first month's payment evaluates to
(100,000 + 7,500)/3 + 1,500 = 112,000/3 ≈ 37,333.33. -/
theorem murabahah_formulas_witness :
    Mur.first_month_payment examplePlan = 112000 / 3 := by
  have h := (murabahah_formulas examplePlan (by norm_num [examplePlan])
    (by norm_num [examplePlan])).2.2.2.1
  rw [h]
  norm_num [examplePlan, Mur.total_profit_amount, Mur.monthly_rate, Mur.admin_fee_amount]

/-- Membership in a conditional singleton. -/
theorem mem_ite_nil {α : Type} (x y : α) (c : Prop) [Decidable c] :
    x ∈ (if c then [y] else []) ↔ c ∧ x = y := by
  split_ifs with h <;> simp [h]

/-- Membership characterization for the contractor validation block. -/
theorem mem_contractorErrors (a : CreditInput) (r : VRule) :
    r ∈ contractorErrors a ↔
      (a.industry_type = some .contractor ∧ strBlank a.unbilled_revenue_str = true
        ∧ r = .unbilledRequired)
      ∨ (a.industry_type = some .contractor ∧ strBlank a.unbilled_revenue_str = false
        ∧ unbilled_revenue a ≤ 0 ∧ r = .unbilledPositive) := by
  unfold contractorErrors
  split_ifs with h1 h2 h3 <;> simp_all

/-- Membership characterization for the net-profit validation block. -/
theorem mem_netProfitErrors (a : CreditInput) (r : VRule) :
    r ∈ netProfitErrors a ↔
      (strBlank a.net_profit_percentage_str = true ∧ r = .netProfitRequired)
      ∨ (strBlank a.net_profit_percentage_str = false ∧ net_profit_percentage a ≤ 0
        ∧ r = .netProfitPositive) := by
  unfold netProfitErrors
  split_ifs with h1 h2 <;> simp_all

/-- The validation error list contains a rule exactly when that rule is
violated: no violated rule is dropped and no satisfied rule is reported. -/
theorem mem_validationErrors (a : CreditInput) (r : VRule) :
    r ∈ validationErrors a ↔ vViolated r a := by
  cases r <;>
    simp [validationErrors, vViolated, List.mem_append, mem_ite_nil,
      mem_contractorErrors, mem_netProfitErrors] <;>
    tauto

/-- The eligibility reason list contains a condition exactly when that
condition fails. -/
theorem mem_eligReasons (a : CreditInput) (r : ERule) :
    r ∈ eligReasons a ↔ eViolated r a := by
  cases r <;> (unfold eligReasons; split_ifs with h1 h2 <;> simp_all [eViolated])

/-- Folding the factor list multiplicatively equals multiplying by its
product. -/
theorem applyAdjustments_eq_prod (base : ℚ) (l : List ℚ) :
    applyAdjustments base l = base * l.prod := by
  induction l generalizing base with
  | nil => simp [applyAdjustments]
  | cons f t ih =>
    rw [applyAdjustments, List.foldl_cons,
      show List.foldl (fun limit f => limit * f) (base * f) t
        = applyAdjustments (base * f) t from rfl,
      ih, List.prod_cons]
    ring

/-- The example's requested limit parses to 500,000. -/
theorem requested_limit_example : requested_limit exampleApp = 500000 := by
  show clean_number (.str ("500,000")) false = 500000
  rw [clean_number_parsed _ _ (false, 500000, 0, 0) (by decide) (by decide)]
  norm_num [ratOfParts]

/-- The example's revenue parses to 10,000,000. -/
theorem revenue_example : revenue exampleApp = 10000000 := by
  show clean_number (.str ("10,000,000")) false = 10000000
  rw [clean_number_parsed _ _ (false, 10000000, 0, 0) (by decide) (by decide)]
  norm_num [ratOfParts]

/-- The example's net profit percentage `"5"` parses to 5% = 1/20. -/
theorem net_profit_percentage_example : net_profit_percentage exampleApp = 1 / 20 := by
  show clean_number (.str ("5")) true = 1 / 20
  rw [clean_number_parsed _ _ (false, 5, 0, 0) (by decide) (by decide)]
  norm_num [ratOfParts]

/-- The example's current assets parse to 3,000,000. -/
theorem current_assets_example : current_assets exampleApp = 3000000 := by
  show clean_number (.str ("3,000,000")) false = 3000000
  rw [clean_number_parsed _ _ (false, 3000000, 0, 0) (by decide) (by decide)]
  norm_num [ratOfParts]

/-- The example's current liabilities parse to 1,000,000. -/
theorem current_liabilities_example : current_liabilities exampleApp = 1000000 := by
  show clean_number (.str ("1,000,000")) false = 1000000
  rw [clean_number_parsed _ _ (false, 1000000, 0, 0) (by decide) (by decide)]
  norm_num [ratOfParts]

/-- The example's exposure parses to 0. -/
theorem exposure_example : exposure_outstanding exampleApp = 0 := by
  show clean_number (.str ("0")) false = 0
  rw [clean_number_parsed _ _ (false, 0, 0, 0) (by decide) (by decide)]
  norm_num [ratOfParts]

/-- The example is a Trading company, so unbilled revenue is 0. -/
theorem unbilled_example : unbilled_revenue exampleApp = 0 := by
  rw [unbilled_revenue, if_neg (by decide)]

/-- The example passes validation with no errors. -/
theorem validationErrors_example : validationErrors exampleApp = [] := by
  norm_num [validationErrors, contractorErrors, netProfitErrors,
    requested_limit_example, revenue_example, net_profit_percentage_example,
    current_assets_example, current_liabilities_example, exposure_example,
    show ¬ (exampleApp.industry_type = none) by decide,
    show ¬ (exampleApp.industry_type = some Industry.contractor) by decide,
    show strBlank exampleApp.net_profit_percentage_str = false by decide,
    show strBlank exampleApp.current_assets_str = false by decide,
    show strBlank exampleApp.current_liabilities_str = false by decide,
    show exampleApp.years_of_operation = 11 from rfl,
    show exampleApp.number_of_projects = 3 from rfl]

/-- The example's actual net profit is 500,000. -/
theorem actual_net_profit_example : actual_net_profit exampleApp = 500000 := by
  norm_num [actual_net_profit, revenue_example, net_profit_percentage_example]

/-- The example's current ratio is 3. -/
theorem currentRatioOpt_example : currentRatioOpt exampleApp = some 3 := by
  norm_num [currentRatioOpt, current_assets_example, current_liabilities_example]

/-- The example passes eligibility with no failed conditions. -/
theorem eligReasons_example : eligReasons exampleApp = [] := by
  norm_num [eligReasons, actual_net_profit_example, currentRatioOpt_example, ratioValue,
    Option.some_ne_none]

/-- The example's unadjusted base limit is 5% of revenue = 500,000. -/
theorem base_limit_unadjusted_example : base_limit_unadjusted exampleApp = 500000 := by
  norm_num [base_limit_unadjusted, revenue_example,
    show ¬ (exampleApp.industry_type = some Industry.contractor) by decide]

/-- The example's base is not capped. -/
theorem capApplied_example : capApplied exampleApp = false := by
  rw [capApplied, base_limit_unadjusted_example]
  exact decide_eq_false (by norm_num [max_initial_base_limit])

/-- The example's base after the (inactive) cap is 500,000. -/
theorem base_limit_after_cap_example : base_limit_after_cap exampleApp = 500000 := by
  rw [base_limit_after_cap, base_limit_unadjusted_example]
  norm_num [max_initial_base_limit]

/-- The example triggers exactly the three positive adjustments, in order. -/
theorem adjFactors_example : adjFactors exampleApp = [1.05, 1.05, 1.10] := by
  norm_num [adjFactors, revenue_example, exposure_example,
    ratioValue, currentRatioOpt_example,
    show exampleApp.is_saudi = true from rfl,
    show exampleApp.years_of_operation = 11 from rfl,
    show exampleApp.has_concentration = false from rfl,
    show exampleApp.number_of_projects = 3 from rfl,
    show exampleApp.has_previous_payments = true from rfl,
    show exampleApp.has_payment_delays = false from rfl]

/-- The example's adjusted limit is 500,000 × 1.05 × 1.05 × 1.10 = 606,375. -/
theorem adjusted_limit_example : adjusted_limit exampleApp = 606375 := by
  rw [adjusted_limit, applyAdjustments_eq_prod, adjFactors_example,
    base_limit_after_cap_example]
  norm_num

/-- The example's final limit is the unclamped 606,375. -/
theorem final_limit_example : final_limit exampleApp = 606375 := by
  norm_num [final_limit, finalClamp, adjusted_limit_example, capApplied_example,
    min_final_limit, max_final_limit]

/-- The example records no floor/ceiling note. -/
theorem minMaxNote_example : minMaxNote exampleApp = none := by
  norm_num [minMaxNote, finalClamp, adjusted_limit_example, capApplied_example,
    min_final_limit, max_final_limit]

/-- C1: for every application that passes validation and eligibility, the
final limit is at least the 100,000 floor; it is at most the 2,000,000
ceiling in every case except the single exception — base capped at
2,000,000 with the adjusted limit above 2,000,000 — where the ceiling is not
applied (the final limit stays at the adjusted value and the ceiling note is
suppressed); and the floor is applied whenever the adjusted limit falls
below it. -/
theorem credit_final_limit_bounds (a : CreditInput)
    (hv : validationErrors a = []) (he : eligReasons a = []) :
    min_final_limit ≤ final_limit a
    ∧ (¬ (capApplied a = true ∧ max_final_limit < adjusted_limit a) →
        final_limit a ≤ max_final_limit)
    ∧ (capApplied a = true → max_final_limit < adjusted_limit a →
        final_limit a = adjusted_limit a ∧ minMaxNote a = none)
    ∧ (adjusted_limit a < min_final_limit → final_limit a = min_final_limit) := by
  unfold final_limit minMaxNote finalClamp
  split_ifs with h1 h2 h3
  · exact ⟨le_refl _, fun _ => by norm_num [min_final_limit, max_final_limit],
      fun _ hlt => absurd (hlt.trans h1) (by norm_num [min_final_limit, max_final_limit]),
      fun _ => rfl⟩
  · refine ⟨le_of_lt (lt_of_le_of_lt (by norm_num [min_final_limit, max_final_limit]) h2),
      fun hn => absurd ⟨h3.1, h2⟩ hn,
      fun _ _ => ⟨rfl, rfl⟩,
      fun hlt => absurd (h2.trans hlt) (by norm_num [min_final_limit, max_final_limit])⟩
  · refine ⟨by norm_num [min_final_limit, max_final_limit], fun _ => le_refl _,
      fun hc _ => absurd ⟨hc, by norm_num [max_final_limit, max_initial_base_limit]⟩ h3,
      fun hlt => absurd (h2.trans hlt) (by norm_num [min_final_limit, max_final_limit])⟩
  · exact ⟨not_lt.mp h1, fun _ => not_lt.mp h2,
      fun _ hlt => absurd hlt h2, fun hlt => absurd hlt h1⟩

/-- C1 witness: the worked example passes both phases, is not in the
exception region, and its final limit respects both the floor and the
ceiling. -/
theorem credit_final_limit_bounds_witness :
    validationErrors exampleApp = [] ∧ eligReasons exampleApp = []
    ∧ min_final_limit ≤ final_limit exampleApp
    ∧ final_limit exampleApp ≤ max_final_limit :=
  ⟨validationErrors_example, eligReasons_example,
    (credit_final_limit_bounds exampleApp validationErrors_example
      eligReasons_example).1,
    (credit_final_limit_bounds exampleApp validationErrors_example
      eligReasons_example).2.1 (by simp [capApplied_example])⟩

/-- C2 counterexample: no input and no permutation of its triggered
adjustment factors produces a different final total — reordering the
multiplicative adjustment chain never changes the adjusted limit, refuting
the claim that some two permutations of the same triggered adjustments
produce different totals. -/
theorem adjustments_reorder_counterexample :
    ¬ ∃ (a : CreditInput) (l : List ℚ), l.Perm (adjFactors a)
      ∧ applyAdjustments (base_limit_after_cap a) l ≠ adjusted_limit a := by
  rintro ⟨a, l, hperm, hne⟩
  exact hne (by rw [adjusted_limit, applyAdjustments_eq_prod,
    applyAdjustments_eq_prod, hperm.prod_eq])

/-- C2 (amended): applying any permutation of the triggered adjustment
factors to the capped base yields the same adjusted limit as the code's
fixed order — multiplicative chaining commutes, so order affects only the
recorded intermediate audit values, never the final total. -/
theorem adjustments_perm_invariant (a : CreditInput) (l : List ℚ)
    (h : l.Perm (adjFactors a)) :
    applyAdjustments (base_limit_after_cap a) l = adjusted_limit a := by
  rw [adjusted_limit, applyAdjustments_eq_prod, applyAdjustments_eq_prod, h.prod_eq]

/-- C2 witness: on the worked example, applying the three triggered factors
in the swapped order ×1.10, ×1.05, ×1.05 yields the same adjusted limit. -/
theorem adjustments_perm_invariant_witness :
    applyAdjustments (base_limit_after_cap exampleApp) [1.10, 1.05, 1.05]
      = adjusted_limit exampleApp := by
  apply adjustments_perm_invariant
  rw [adjFactors_example]
  exact (List.Perm.swap 1.05 1.10 [1.05]).trans
    (List.Perm.cons 1.05 (List.Perm.swap 1.05 1.10 []))

/-- C6: the worked example — revenue 10,000,000, Trading, no negative
triggers, current ratio 3 > 2, 11 years > 10, previous timely payments —
passes validation and eligibility, has uncapped base 500,000, triggers
exactly ×1.05, ×1.05, ×1.10 in that order, and yields final limit 606,375
with neither floor nor ceiling applied. -/
theorem credit_example_result :
    creditEval exampleApp = .ok (creditResult exampleApp)
    ∧ base_limit_unadjusted exampleApp = 500000
    ∧ capApplied exampleApp = false
    ∧ adjFactors exampleApp = [1.05, 1.05, 1.10]
    ∧ adjusted_limit exampleApp = 606375
    ∧ final_limit exampleApp = 606375
    ∧ minMaxNote exampleApp = none := by
  refine ⟨?_, base_limit_unadjusted_example, capApplied_example, adjFactors_example,
    adjusted_limit_example, final_limit_example, minMaxNote_example⟩
  rw [creditEval, if_neg (by simp [validationErrors_example]),
    if_neg (by simp [eligReasons_example])]

/-- C8: on invalid input the evaluator fails with a validation error carrying
the full list of violated rules — the list contains a rule exactly when that
rule is violated, so every violated rule is collected, not just the first;
eligibility is evaluated only when validation passes, and an eligibility
failure yields an ineligibility error carrying exactly the failed
conditions, with no calculation result produced in either case. -/
theorem creditEval_collects_all (a : CreditInput) :
    (validationErrors a ≠ [] → creditEval a = .error (.validation (validationErrors a)))
    ∧ (∀ r : VRule, r ∈ validationErrors a ↔ vViolated r a)
    ∧ (validationErrors a = [] → eligReasons a ≠ [] →
        creditEval a = .error (.ineligible (eligReasons a)))
    ∧ (∀ r : ERule, r ∈ eligReasons a ↔ eViolated r a) := by
  refine ⟨fun hne => by rw [creditEval, if_pos hne],
    mem_validationErrors a,
    fun hv hne => by rw [creditEval, if_neg (by simp [hv]), if_pos hne],
    mem_eligReasons a⟩

/-- C8 witness: the empty submission violates several rules at once — both
the requested-limit rule and the liabilities rule are in its error list —
and the evaluator returns exactly that list as a validation error. -/
theorem creditEval_collects_all_witness :
    VRule.requestedPositive ∈ validationErrors invalidApp
    ∧ VRule.liabilitiesPositive ∈ validationErrors invalidApp
    ∧ creditEval invalidApp = .error (.validation (validationErrors invalidApp)) := by
  have h := creditEval_collects_all invalidApp
  have h1 : vViolated VRule.requestedPositive invalidApp := le_refl 0
  have h2 : vViolated VRule.liabilitiesPositive invalidApp := le_refl 0
  exact ⟨(h.2.1 _).mpr h1, (h.2.1 _).mpr h2,
    h.1 (List.ne_nil_of_mem ((h.2.1 _).mpr h1))⟩

/-- C10: once validation passes, the net-profit ineligibility branch and the
undefined-ratio branch are unreachable and the ratio division is by a
nonzero denominator: the actual net profit is strictly positive, the current
ratio is defined as assets over liabilities, the liabilities are nonzero,
and the only possible eligibility failure is a ratio at most 1. -/
theorem validation_pass_reachability (a : CreditInput)
    (hv : validationErrors a = []) :
    0 < actual_net_profit a
    ∧ currentRatioOpt a = some (current_assets a / current_liabilities a)
    ∧ current_liabilities a ≠ 0
    ∧ (eligReasons a = [] ∨ eligReasons a = [.ratioNotAboveOne]) := by
  have hno : ∀ r : VRule, ¬ vViolated r a := fun r hr =>
    absurd ((mem_validationErrors a r).mpr hr) (by simp [hv])
  have hrev : 0 < revenue a := not_le.mp (hno .revenuePositive)
  have hblank : strBlank a.net_profit_percentage_str = false := by
    have h : ¬ strBlank a.net_profit_percentage_str = true := hno .netProfitRequired
    simpa using h
  have hnpp : 0 < net_profit_percentage a := by
    have h : ¬ (strBlank a.net_profit_percentage_str = false
        ∧ net_profit_percentage a ≤ 0) := hno .netProfitPositive
    exact not_le.mp (not_and.mp h hblank)
  have hassets : 0 < current_assets a := not_le.mp (hno .assetsPositive)
  have hliab : 0 < current_liabilities a := not_le.mp (hno .liabilitiesPositive)
  have hanp : 0 < actual_net_profit a := by
    rw [actual_net_profit, if_pos hrev]
    exact mul_pos hrev hnpp
  have hratio : currentRatioOpt a = some (current_assets a / current_liabilities a) := by
    rw [currentRatioOpt, if_pos ⟨hliab, hassets⟩]
  refine ⟨hanp, hratio, ne_of_gt hliab, ?_⟩
  rw [eligReasons, if_neg (not_le.mpr hanp), if_neg (by rw [hratio]; simp)]
  by_cases hq : ratioValue a ≤ 1
  · right; rw [if_pos hq, List.nil_append]
  · left; rw [if_neg hq, List.nil_append]

/-- C10 witness: the worked example passes validation, and its actual net
profit is strictly positive as the theorem asserts. -/
theorem validation_pass_reachability_witness :
    validationErrors exampleApp = [] ∧ 0 < actual_net_profit exampleApp :=
  ⟨validationErrors_example,
    (validation_pass_reachability exampleApp validationErrors_example).1⟩

end AeToolkit
